import Mathlib

/-!
Shallow embedding of the notification dispatcher in
src/reroute-admin/functions/src/index.ts (the four Cloud Functions
sendCommunicationNotification, sendBookingStatusNotification,
sendFarmhouseStatusNotification, sendManualNotification), together with
theorems settling the frozen claims about it.

Modelling conventions:
- A Firestore user document is a UserRecord; the users collection is a
  List UserRecord.  Missing fields are Option values.
- JavaScript truthiness on string-valued fields (undefined and the empty
  string are falsy) is modelled by strTruthy.
- The push transport (admin.messaging) is a parameter: for a batched
  multicast call it maps the token list either to per-token counts
  (TransportResult.ok) or to a thrown exception carrying a message
  (TransportResult.exn).
- Each handler returns the trace of its observable effects: the transport
  calls it attempted, the Firestore writes it performed, the user-document
  lookups it made.  Store reads and writes themselves are assumed to
  succeed, matching the specification, which only models transport-level
  exceptions.
-/

namespace RerouteAdmin

/-- A document in the users collection.  Field names follow index.ts:
fcmToken is the stored push token (absent means unreachable), role is the
role string, isActive mirrors the is_active flag read by the admin UI. -/
structure UserRecord where
  id : String
  role : Option String
  isActive : Bool
  fcmToken : Option String
deriving Repr, DecidableEq

/-- JavaScript truthiness for an optional string field: undefined and the
empty string are falsy. -/
def strTruthy : Option String → Bool
  | none => false
  | some s => s != ""

/-- Truthiness filter applied to a stored token, as in
`.filter(token => token)` and `if (fcmToken)` in index.ts. -/
def truthyToken : Option String → Option String
  | some s => if s != "" then some s else none
  | none => none

/-- A communications document, as created by the admin UI and consumed by
sendCommunicationNotification. -/
structure Communication where
  recipientType : String
  recipientId : Option String
  recipientRole : Option String
  title : Option String
  message : Option String
deriving Repr, DecidableEq

/-- The user-record set each branch of sendCommunicationNotification
queries (index.ts lines 19 to 46) before extracting tokens: the all_users
branch reads the whole users collection, the specific_user branch reads
the one document named by recipientId, the role branch reads the users
whose role field equals recipientRole, and every other recipientType value
matches no branch, so no user is resolved. -/
def resolveRecipients (users : List UserRecord) (c : Communication) : List UserRecord :=
  if c.recipientType = "all_users" then
    users
  else if c.recipientType = "specific_user" ∧ strTruthy c.recipientId then
    (users.find? (fun u => some u.id = c.recipientId)).toList
  else if c.recipientType = "role" ∧ strTruthy c.recipientRole then
    users.filter (fun u => u.role = c.recipientRole)
  else
    []

/-- The recipientTokens list computed by index.ts lines 17 to 46: each
branch maps its queried documents to fcmToken and keeps the truthy ones. -/
def resolveRecipientTokens (users : List UserRecord) (c : Communication) : List String :=
  if c.recipientType = "all_users" then
    (users.map UserRecord.fcmToken).filterMap truthyToken
  else if c.recipientType = "specific_user" ∧ strTruthy c.recipientId then
    match users.find? (fun u => some u.id = c.recipientId) with
    | some u =>
      match truthyToken u.fcmToken with
      | some t => [t]
      | none => []
    | none => []
  else if c.recipientType = "role" ∧ strTruthy c.recipientRole then
    ((users.filter (fun u => u.role = c.recipientRole)).map UserRecord.fcmToken).filterMap truthyToken
  else
    []

/-- Result of one transport call: either the per-token aggregate counts
returned by the messaging API, or a thrown exception with its message. -/
inductive TransportResult where
  | ok (successCount failureCount : Nat)
  | exn (msg : String)
deriving Repr, DecidableEq

/-- One write performed by sendCommunicationNotification onto the
triggering communications document: either the success-path update
(notificationSent true plus deliveryStatus counts, index.ts lines 91 to
98) or the catch-path update (notificationSent false plus
notificationError, lines 105 to 108). -/
inductive DeliveryWrite where
  | delivered (success failure : Nat)
  | failed (errMsg : String)
deriving Repr, DecidableEq

/-- Observable effects of one invocation of sendCommunicationNotification:
the token lists passed to sendEachForMulticast and the writes performed on
the triggering document. -/
structure BroadcastEffects where
  transportCalls : List (List String)
  writes : List DeliveryWrite
deriving Repr, DecidableEq

/-- Embedding of sendCommunicationNotification (index.ts lines 10 to 112):
resolve tokens; when none are found, return early with no transport call
and no write; otherwise make one batched transport call and perform
exactly one write recording its outcome, using the catch path when the
call throws. -/
def sendCommunicationNotification (users : List UserRecord) (c : Communication)
    (transport : List String → TransportResult) : BroadcastEffects :=
  if (resolveRecipientTokens users c).length = 0 then
    ⟨[], []⟩
  else
    match transport (resolveRecipientTokens users c) with
    | .ok s f => ⟨[resolveRecipientTokens users c], [.delivered s f]⟩
    | .exn m => ⟨[resolveRecipientTokens users c], [.failed m]⟩

/-- A bookings document restricted to the fields the handler reads; the
otherFields component stands for every other booking field, which the
handler never inspects. -/
structure BookingData where
  bookingStatus : String
  paymentStatus : String
  userId : Option String
  user_id : Option String
  otherFields : List (String × String)
deriving Repr, DecidableEq

/-- The booking-status switch of index.ts lines 153 to 166, applied to the
new bookingStatus value; statuses outside the three cases leave the
defaults of lines 149 and 150 in place. -/
def bookingStatusSwitch (s : String) : String × String :=
  if s = "confirmed" then ("Booking Confirmed", "Your booking has been confirmed!")
  else if s = "cancelled" then ("Booking Cancelled", "Your booking has been cancelled.")
  else if s = "completed" then ("Booking Completed", "Thank you for using our service!")
  else ("Booking Update", "")

/-- The payment-status switch of index.ts lines 168 to 181, applied to the
new paymentStatus value; other statuses leave the defaults in place. -/
def paymentStatusSwitch (s : String) : String × String :=
  if s = "paid" then ("Payment Successful", "Your payment has been received.")
  else if s = "failed" then ("Payment Failed", "Your payment could not be processed.")
  else if s = "refunded" then ("Payment Refunded", "Your payment has been refunded.")
  else ("Booking Update", "")

/-- Title and body selected by index.ts lines 148 to 182: the
booking-status switch when bookingStatus changed, else the payment-status
switch when paymentStatus changed, else the defaults. -/
def bookingMessage (before after : BookingData) : String × String :=
  if before.bookingStatus ≠ after.bookingStatus then
    bookingStatusSwitch after.bookingStatus
  else if before.paymentStatus ≠ after.paymentStatus then
    paymentStatusSwitch after.paymentStatus
  else
    ("Booking Update", "")

/-- One push message handed to admin.messaging send: target token, title,
body, and the type key of the data payload. -/
structure PushMessage where
  token : String
  title : String
  body : String
  dataType : String
deriving Repr, DecidableEq

/-- Observable effects of one booking or farmhouse handler invocation:
user-document lookups performed, messages sent, and Firestore writes
performed (these two handlers never write, so writes stays 0). -/
structure HandlerEffects where
  lookups : Nat
  sends : List PushMessage
  writes : Nat
deriving Repr, DecidableEq

/-- The effective user id of index.ts line 131: after.userId with
JavaScript fallback to after.user_id. -/
def bookingUid (after : BookingData) : Option String :=
  if strTruthy after.userId then after.userId else after.user_id

/-- The token the booking handler resolves for the booking user: when the
effective user id is truthy, the user document is fetched and its fcmToken
kept if truthy (index.ts lines 137 to 146). -/
def resolveBookingToken (users : List UserRecord) (after : BookingData) : Option String :=
  if strTruthy (bookingUid after) then
    truthyToken ((users.find? (fun u => some u.id = bookingUid after)).bind UserRecord.fcmToken)
  else
    none

/-- Embedding of sendBookingStatusNotification (index.ts lines 117 to
222): return with no effect when neither status changed (lines 124 to
127); return with no lookup when no truthy user id exists (lines 131 to
135); otherwise one lookup, and one send carrying bookingMessage exactly
when a truthy token was found.  The handler never writes back. -/
def sendBookingStatusNotification (users : List UserRecord)
    (before after : BookingData) : HandlerEffects :=
  if before.bookingStatus = after.bookingStatus ∧ before.paymentStatus = after.paymentStatus then
    ⟨0, [], 0⟩
  else
    if strTruthy (bookingUid after) then
      ⟨1,
        match resolveBookingToken users after with
        | none => []
        | some t =>
          [⟨t, (bookingMessage before after).1, (bookingMessage before after).2, "booking_update"⟩],
        0⟩
    else
      ⟨0, [], 0⟩

/-- A farmhouses document restricted to the fields the handler reads;
otherFields stands for the fields it never inspects. -/
structure FarmhouseData where
  isApproved : Bool
  ownerId : Option String
  owner_id : Option String
  name : Option String
  farmhouse_name : Option String
  otherFields : List (String × String)
deriving Repr, DecidableEq

/-- The display name of index.ts line 258: after.name, falling back to
after.farmhouse_name, falling back to the fixed default. -/
def farmhouseDisplayName (after : FarmhouseData) : String :=
  if strTruthy after.name then after.name.getD ""
  else if strTruthy after.farmhouse_name then after.farmhouse_name.getD ""
  else "Your farmhouse"

/-- Notification title of index.ts line 259. -/
def farmhouseTitle (after : FarmhouseData) : String :=
  if after.isApproved then "Farmhouse Approved!" else "Farmhouse Status Update"

/-- Notification body of index.ts lines 260 to 262. -/
def farmhouseBody (after : FarmhouseData) : String :=
  if after.isApproved then
    farmhouseDisplayName after ++ " has been approved and is now live!"
  else
    farmhouseDisplayName after ++ " status has been updated."

/-- The effective owner id of index.ts line 240: after.ownerId with
JavaScript fallback to after.owner_id. -/
def farmhouseOid (after : FarmhouseData) : Option String :=
  if strTruthy after.ownerId then after.ownerId else after.owner_id

/-- The token the farmhouse handler resolves for the owner: when the
effective owner id is truthy, the owner document is fetched and its
fcmToken kept if truthy (index.ts lines 246 to 255). -/
def resolveOwnerToken (users : List UserRecord) (after : FarmhouseData) : Option String :=
  if strTruthy (farmhouseOid after) then
    truthyToken ((users.find? (fun u => some u.id = farmhouseOid after)).bind UserRecord.fcmToken)
  else
    none

/-- Embedding of sendFarmhouseStatusNotification (index.ts lines 227 to
301): no effect when isApproved is unchanged (lines 234 to 236); no
lookup when no truthy owner id exists; otherwise one lookup and one send
exactly when a truthy token was found.  Never writes back. -/
def sendFarmhouseStatusNotification (users : List UserRecord)
    (before after : FarmhouseData) : HandlerEffects :=
  if before.isApproved = after.isApproved then
    ⟨0, [], 0⟩
  else
    if strTruthy (farmhouseOid after) then
      ⟨1,
        match resolveOwnerToken users after with
        | none => []
        | some t => [⟨t, farmhouseTitle after, farmhouseBody after, "farmhouse_update"⟩],
        0⟩
    else
      ⟨0, [], 0⟩

/-- Error codes of the HttpsError values thrown by sendManualNotification. -/
inductive ErrCode where
  | unauthenticated
  | permissionDenied
  | invalidArgument
  | internal
deriving Repr, DecidableEq

/-- An HttpsError: code plus message, as constructed in index.ts. -/
structure HttpsErr where
  code : ErrCode
  message : String
deriving Repr, DecidableEq

/-- The value returned by sendManualNotification on success (index.ts
lines 365 to 369). -/
structure ManualResponse where
  success : Bool
  successCount : Nat
  failureCount : Nat
deriving Repr, DecidableEq

/-- The request payload of sendManualNotification; each field may be
absent. -/
structure ManualRequest where
  title : Option String
  body : Option String
  tokens : Option (List String)
deriving Repr, DecidableEq

/-- The validation condition of index.ts line 331:
`!title || !body || !tokens || tokens.length === 0`, with JavaScript
truthiness on title and body. -/
def manualRequestInvalid (req : ManualRequest) : Bool :=
  !(strTruthy req.title) || !(strTruthy req.body) || req.tokens.isNone
    || (req.tokens.getD []).isEmpty

/-- Outcome of one call to sendManualNotification: the returned value or
thrown error, plus the token lists passed to the transport. -/
structure ManualOutcome where
  result : Except HttpsErr ManualResponse
  transportCalls : List (List String)
deriving Repr

/-- Embedding of sendManualNotification (index.ts lines 307 to 377):
unauthenticated callers are rejected first; then the caller document is
fetched and a role other than admin is rejected; then the request is
validated; only then is one batched transport call made, returning
success true with the transport counts, or, when the call throws, a
generic internal error whose message does not depend on the exception. -/
def sendManualNotification (users : List UserRecord) (auth : Option String)
    (req : ManualRequest) (transport : List String → TransportResult) : ManualOutcome :=
  match auth with
  | none => ⟨.error ⟨.unauthenticated, "User must be authenticated"⟩, []⟩
  | some uid =>
    if ((users.find? (fun u => u.id = uid)).bind UserRecord.role) ≠ some "admin" then
      ⟨.error ⟨.permissionDenied, "Only admins can send notifications"⟩, []⟩
    else if manualRequestInvalid req then
      ⟨.error ⟨.invalidArgument, "Missing required fields: title, body, or tokens"⟩, []⟩
    else
      match transport (req.tokens.getD []) with
      | .ok s f => ⟨.ok ⟨true, s, f⟩, [req.tokens.getD []]⟩
      | .exn _ => ⟨.error ⟨.internal, "Failed to send notification"⟩, [req.tokens.getD []]⟩

/-- Helper: when at least one token resolves, sendCommunicationNotification
makes one transport call on the resolved token list and performs exactly
one write recording that call. -/
theorem sendCommunication_eq_of_tokens (users : List UserRecord) (c : Communication)
    (transport : List String → TransportResult)
    (hne : resolveRecipientTokens users c ≠ []) :
    sendCommunicationNotification users c transport =
      match transport (resolveRecipientTokens users c) with
      | .ok s f => ⟨[resolveRecipientTokens users c], [.delivered s f]⟩
      | .exn m => ⟨[resolveRecipientTokens users c], [.failed m]⟩ := by
  have h0 : ¬ (resolveRecipientTokens users c).length = 0 := by
    simpa [List.length_eq_zero] using hne
  unfold sendCommunicationNotification
  simp only [if_neg h0]

/-- Helper: when no token resolves, sendCommunicationNotification returns
early with no transport call and no write. -/
theorem sendCommunication_eq_of_no_tokens (users : List UserRecord) (c : Communication)
    (transport : List String → TransportResult)
    (h : resolveRecipientTokens users c = []) :
    sendCommunicationNotification users c transport = ⟨[], []⟩ := by
  unfold sendCommunicationNotification
  simp [h]

/-- C1: over a fixed user set holding an active owner with a token and an
active plain user with a token, the dispatcher resolves all_users to every
user record and specific_user to exactly the named user, but it has no
branch for the selector values active_users_only, all_owners, or
farmhouse_owners: each of those resolves to no recipients at all (instead
of the active users, respectively the owners), and the broadcast event is
dropped without any transport call or write. -/
theorem c1_recipient_resolution_missing_branches :
    resolveRecipients
        [⟨"u1", some "owner", true, some "tA"⟩, ⟨"u2", some "user", true, some "tB"⟩]
        ⟨"all_users", none, none, some "Hi", some "Hello"⟩ =
      [⟨"u1", some "owner", true, some "tA"⟩, ⟨"u2", some "user", true, some "tB"⟩] ∧
    resolveRecipients
        [⟨"u1", some "owner", true, some "tA"⟩, ⟨"u2", some "user", true, some "tB"⟩]
        ⟨"specific_user", some "u2", none, some "Hi", some "Hello"⟩ =
      [⟨"u2", some "user", true, some "tB"⟩] ∧
    resolveRecipients
        [⟨"u1", some "owner", true, some "tA"⟩, ⟨"u2", some "user", true, some "tB"⟩]
        ⟨"active_users_only", none, none, some "Hi", some "Hello"⟩ = [] ∧
    resolveRecipients
        [⟨"u1", some "owner", true, some "tA"⟩, ⟨"u2", some "user", true, some "tB"⟩]
        ⟨"all_owners", none, none, some "Hi", some "Hello"⟩ = [] ∧
    resolveRecipients
        [⟨"u1", some "owner", true, some "tA"⟩, ⟨"u2", some "user", true, some "tB"⟩]
        ⟨"farmhouse_owners", none, none, some "Hi", some "Hello"⟩ = [] ∧
    sendCommunicationNotification
        [⟨"u1", some "owner", true, some "tA"⟩, ⟨"u2", some "user", true, some "tB"⟩]
        ⟨"all_owners", none, none, some "Hi", some "Hello"⟩
        (fun ts => .ok ts.length 0) = ⟨[], []⟩ := by
  refine ⟨rfl, by decide, by decide, by decide, by decide, by decide⟩

/-- C2 counterexample: a broadcast creation event over a user set in which
no token resolves (here one tokenless user) performs zero delivery-outcome
writes, refuting the statement that the dispatcher performs exactly one
such write for every broadcast creation event. -/
theorem c2_zero_writes_counterexample :
    (sendCommunicationNotification
        [⟨"u1", some "user", true, none⟩]
        ⟨"all_users", none, none, some "Hi", some "Hello"⟩
        (fun ts => .ok ts.length 0)).writes = [] := by
  decide

/-- C2 amended: every broadcast creation event performs at most one
delivery-outcome write on the triggering record; exactly one write is
performed whenever at least one recipient token resolves (both when the
transport succeeds and when it throws), and zero writes are performed when
no token resolves, because the handler returns early. -/
theorem c2_at_most_one_outcome_write (users : List UserRecord) (c : Communication)
    (transport : List String → TransportResult) :
    (sendCommunicationNotification users c transport).writes.length ≤ 1 ∧
    (resolveRecipientTokens users c ≠ [] →
      (sendCommunicationNotification users c transport).writes.length = 1) ∧
    (resolveRecipientTokens users c = [] →
      (sendCommunicationNotification users c transport).writes = []) := by
  by_cases h : resolveRecipientTokens users c = []
  · rw [sendCommunication_eq_of_no_tokens users c transport h]
    exact ⟨by simp, fun hne => absurd h hne, fun _ => rfl⟩
  · rw [sendCommunication_eq_of_tokens users c transport h]
    cases transport (resolveRecipientTokens users c) with
    | ok s f => exact ⟨by simp, fun _ => rfl, fun he => absurd he h⟩
    | exn m => exact ⟨by simp, fun _ => rfl, fun he => absurd he h⟩

/-- C2 witness: on a concrete event with one resolvable token, the amended
statement yields exactly one write. -/
theorem c2_at_most_one_outcome_write_witness :
    (sendCommunicationNotification
        [⟨"u1", some "user", true, some "tA"⟩]
        ⟨"all_users", none, none, some "Hi", some "Hello"⟩
        (fun ts => .ok ts.length 0)).writes.length = 1 :=
  (c2_at_most_one_outcome_write
    [⟨"u1", some "user", true, some "tA"⟩]
    ⟨"all_users", none, none, some "Hi", some "Hello"⟩
    (fun ts => .ok ts.length 0)).2.1 (by decide)

/-- C3: on the specification scenario (user 1 active with token tA, user 2
inactive with token tB, user 3 active without token) a broadcast with
selector active_users_only, title Hi, body Hello is dropped by the
dispatcher with no transport call and no write at all, instead of sending
to the token list [tA] and recording one success, because the dispatcher
has no branch for that selector value. -/
theorem c3_active_users_scenario_dropped :
    sendCommunicationNotification
        [⟨"1", some "user", true, some "tA"⟩,
         ⟨"2", some "user", false, some "tB"⟩,
         ⟨"3", some "user", true, none⟩]
        ⟨"active_users_only", none, none, some "Hi", some "Hello"⟩
        (fun ts => .ok ts.length 0) = ⟨[], []⟩ := by
  decide

/-- Helper: when the effective user id is falsy, no booking token
resolves. -/
theorem resolveBookingToken_eq_none_of_uid_falsy (users : List UserRecord) (after : BookingData)
    (h : strTruthy (bookingUid after) = false) :
    resolveBookingToken users after = none := by
  unfold resolveBookingToken
  simp [h]

/-- Helper: when the guard passes and a token resolves, the booking
handler performs one lookup and one send carrying bookingMessage, and no
write. -/
theorem booking_sends_eq_of_token (users : List UserRecord) (before after : BookingData)
    (t : String)
    (hguard : ¬(before.bookingStatus = after.bookingStatus ∧
      before.paymentStatus = after.paymentStatus))
    (ht : resolveBookingToken users after = some t) :
    sendBookingStatusNotification users before after =
      ⟨1, [⟨t, (bookingMessage before after).1, (bookingMessage before after).2,
        "booking_update"⟩], 0⟩ := by
  have huid : strTruthy (bookingUid after) = true := by
    by_contra h
    rw [Bool.not_eq_true] at h
    rw [resolveBookingToken_eq_none_of_uid_falsy users after h] at ht
    exact Option.noConfusion ht
  unfold sendBookingStatusNotification
  rw [if_neg hguard]
  simp only [huid, if_true, ht]

/-- Helper: the booking handler never sends more than one message. -/
theorem booking_sends_length_le_one (users : List UserRecord) (b a : BookingData) :
    (sendBookingStatusNotification users b a).sends.length ≤ 1 := by
  unfold sendBookingStatusNotification
  repeat' split
  all_goals simp

/-- C4 counterexample: a booking whose bookingStatus changes from
confirmed to the unhandled value pending, for a user with a stored token,
still triggers a push with the default title Booking Update and an empty
body, refuting the statement that such a change is ignored with no
notification sent. -/
theorem c4_unhandled_status_still_sends :
    (sendBookingStatusNotification
        [⟨"u1", some "user", true, some "tA"⟩]
        ⟨"confirmed", "paid", some "u1", none, []⟩
        ⟨"pending", "paid", some "u1", none, []⟩).sends =
      [⟨"tA", "Booking Update", "", "booking_update"⟩] := by
  decide

/-- C4 amended: when the guard passes and a token resolves, the text is
selected by priority: a bookingStatus change uses the booking-status
switch and an otherwise-unchanged paymentStatus change uses the
payment-status switch; the switches map confirmed, cancelled, completed
(respectively paid, failed, refunded) to their fixed title and body, and
every other status value to the default title Booking Update with an
empty body — a notification is still sent for such values (they are not
ignored), and no error is raised. -/
theorem c4_message_priority_tables (users : List UserRecord) (before after : BookingData)
    (t : String) (ht : resolveBookingToken users after = some t) :
    (before.bookingStatus ≠ after.bookingStatus →
      sendBookingStatusNotification users before after =
        ⟨1, [⟨t, (bookingStatusSwitch after.bookingStatus).1,
          (bookingStatusSwitch after.bookingStatus).2, "booking_update"⟩], 0⟩) ∧
    (before.bookingStatus = after.bookingStatus → before.paymentStatus ≠ after.paymentStatus →
      sendBookingStatusNotification users before after =
        ⟨1, [⟨t, (paymentStatusSwitch after.paymentStatus).1,
          (paymentStatusSwitch after.paymentStatus).2, "booking_update"⟩], 0⟩) ∧
    bookingStatusSwitch "confirmed" = ("Booking Confirmed", "Your booking has been confirmed!") ∧
    bookingStatusSwitch "cancelled" = ("Booking Cancelled", "Your booking has been cancelled.") ∧
    bookingStatusSwitch "completed" = ("Booking Completed", "Thank you for using our service!") ∧
    (∀ s, s ≠ "confirmed" → s ≠ "cancelled" → s ≠ "completed" →
      bookingStatusSwitch s = ("Booking Update", "")) ∧
    paymentStatusSwitch "paid" = ("Payment Successful", "Your payment has been received.") ∧
    paymentStatusSwitch "failed" = ("Payment Failed", "Your payment could not be processed.") ∧
    paymentStatusSwitch "refunded" = ("Payment Refunded", "Your payment has been refunded.") ∧
    (∀ s, s ≠ "paid" → s ≠ "failed" → s ≠ "refunded" →
      paymentStatusSwitch s = ("Booking Update", "")) := by
  refine ⟨?_, ?_, rfl, rfl, rfl, ?_, rfl, rfl, rfl, ?_⟩
  · intro hb
    rw [booking_sends_eq_of_token users before after t (fun hand => hb hand.1) ht]
    unfold bookingMessage
    rw [if_pos hb]
  · intro hb hp
    rw [booking_sends_eq_of_token users before after t (fun hand => hp hand.2) ht]
    unfold bookingMessage
    rw [if_neg (fun h => h hb), if_pos hp]
  · intro s h1 h2 h3
    unfold bookingStatusSwitch
    rw [if_neg h1, if_neg h2, if_neg h3]
  · intro s h1 h2 h3
    unfold paymentStatusSwitch
    rw [if_neg h1, if_neg h2, if_neg h3]

/-- C4 witness: on a concrete event changing bookingStatus from pending to
confirmed with a resolvable token, the amended statement yields the fixed
confirmed message. -/
theorem c4_message_priority_tables_witness :
    sendBookingStatusNotification [⟨"u1", some "user", true, some "tA"⟩]
        ⟨"pending", "paid", some "u1", none, []⟩
        ⟨"confirmed", "paid", some "u1", none, []⟩ =
      ⟨1, [⟨"tA", (bookingStatusSwitch "confirmed").1,
        (bookingStatusSwitch "confirmed").2, "booking_update"⟩], 0⟩ :=
  (c4_message_priority_tables [⟨"u1", some "user", true, some "tA"⟩]
    ⟨"pending", "paid", some "u1", none, []⟩
    ⟨"confirmed", "paid", some "u1", none, []⟩ "tA" (by decide)).1 (by decide)

/-- C5: when both bookingStatus and paymentStatus change in one event and
a token resolves, exactly one push is sent and its text comes from the
booking-status switch (the payment-status message is not used), and in
general no invocation of the booking handler ever sends more than one
push. -/
theorem c5_both_changed_one_send_status_wins (users : List UserRecord)
    (before after : BookingData) (t : String)
    (hb : before.bookingStatus ≠ after.bookingStatus)
    (_hp : before.paymentStatus ≠ after.paymentStatus)
    (ht : resolveBookingToken users after = some t) :
    sendBookingStatusNotification users before after =
      ⟨1, [⟨t, (bookingStatusSwitch after.bookingStatus).1,
        (bookingStatusSwitch after.bookingStatus).2, "booking_update"⟩], 0⟩ ∧
    (sendBookingStatusNotification users before after).sends.length = 1 ∧
    ∀ (us : List UserRecord) (b a : BookingData),
      (sendBookingStatusNotification us b a).sends.length ≤ 1 := by
  have heq : sendBookingStatusNotification users before after =
      ⟨1, [⟨t, (bookingStatusSwitch after.bookingStatus).1,
        (bookingStatusSwitch after.bookingStatus).2, "booking_update"⟩], 0⟩ := by
    rw [booking_sends_eq_of_token users before after t (fun hand => hb hand.1) ht]
    unfold bookingMessage
    rw [if_pos hb]
  exact ⟨heq, by simp [heq], booking_sends_length_le_one⟩

/-- C5 witness: on a concrete event where bookingStatus moves to cancelled
and paymentStatus moves to refunded at once, one push is sent with the
cancelled message. -/
theorem c5_both_changed_one_send_status_wins_witness :
    sendBookingStatusNotification [⟨"u1", some "user", true, some "tA"⟩]
        ⟨"confirmed", "paid", some "u1", none, []⟩
        ⟨"cancelled", "refunded", some "u1", none, []⟩ =
      ⟨1, [⟨"tA", (bookingStatusSwitch "cancelled").1,
        (bookingStatusSwitch "cancelled").2, "booking_update"⟩], 0⟩ :=
  (c5_both_changed_one_send_status_wins [⟨"u1", some "user", true, some "tA"⟩]
    ⟨"confirmed", "paid", some "u1", none, []⟩
    ⟨"cancelled", "refunded", some "u1", none, []⟩ "tA"
    (by decide) (by decide) (by decide)).1

/-- C6: when neither bookingStatus nor paymentStatus differs between the
before and after snapshots, the booking handler performs zero lookups,
zero sends and zero writes, whatever the other booking fields hold. -/
theorem c6_booking_guard_noop (users : List UserRecord) (before after : BookingData)
    (hb : before.bookingStatus = after.bookingStatus)
    (hp : before.paymentStatus = after.paymentStatus) :
    sendBookingStatusNotification users before after = ⟨0, [], 0⟩ := by
  unfold sendBookingStatusNotification
  rw [if_pos ⟨hb, hp⟩]

/-- C6 witness: a confirmed and paid booking whose unrelated fields change
produces no lookup, no send and no write. -/
theorem c6_booking_guard_noop_witness :
    sendBookingStatusNotification [⟨"u1", some "user", true, some "tA"⟩]
        ⟨"confirmed", "paid", some "u1", none, [("guestCount", "2")]⟩
        ⟨"confirmed", "paid", some "u1", none, [("guestCount", "5")]⟩ = ⟨0, [], 0⟩ :=
  c6_booking_guard_noop [⟨"u1", some "user", true, some "tA"⟩]
    ⟨"confirmed", "paid", some "u1", none, [("guestCount", "2")]⟩
    ⟨"confirmed", "paid", some "u1", none, [("guestCount", "5")]⟩ rfl rfl

/-- Helper: when the effective owner id is falsy, no owner token
resolves. -/
theorem resolveOwnerToken_eq_none_of_oid_falsy (users : List UserRecord) (after : FarmhouseData)
    (h : strTruthy (farmhouseOid after) = false) :
    resolveOwnerToken users after = none := by
  unfold resolveOwnerToken
  simp [h]

/-- Helper: when isApproved changed and an owner token resolves, the
farmhouse handler performs one lookup and sends exactly the message built
from farmhouseTitle and farmhouseBody, with no write. -/
theorem farmhouse_sends_eq_of_token (users : List UserRecord) (before after : FarmhouseData)
    (t : String) (hne : ¬ before.isApproved = after.isApproved)
    (ht : resolveOwnerToken users after = some t) :
    sendFarmhouseStatusNotification users before after =
      ⟨1, [⟨t, farmhouseTitle after, farmhouseBody after, "farmhouse_update"⟩], 0⟩ := by
  have hoid : strTruthy (farmhouseOid after) = true := by
    by_contra h
    rw [Bool.not_eq_true] at h
    rw [resolveOwnerToken_eq_none_of_oid_falsy users after h] at ht
    exact Option.noConfusion ht
  unfold sendFarmhouseStatusNotification
  rw [if_neg hne]
  simp only [hoid, if_true, ht]

/-- C9: when approval status is unchanged the listing handler performs
zero lookups, zero sends and zero writes whatever other fields changed;
when it changed and an owner token resolves, a change to approved sends
the congratulatory message naming the listing, and any other transition
sends the generic status-updated message. -/
theorem c9_listing_guard_and_messages (users : List UserRecord)
    (before after : FarmhouseData) (t : String) :
    (before.isApproved = after.isApproved →
      sendFarmhouseStatusNotification users before after = ⟨0, [], 0⟩) ∧
    (before.isApproved ≠ after.isApproved → resolveOwnerToken users after = some t →
      ((after.isApproved = true →
        sendFarmhouseStatusNotification users before after =
          ⟨1, [⟨t, "Farmhouse Approved!",
            farmhouseDisplayName after ++ " has been approved and is now live!",
            "farmhouse_update"⟩], 0⟩) ∧
       (after.isApproved = false →
        sendFarmhouseStatusNotification users before after =
          ⟨1, [⟨t, "Farmhouse Status Update",
            farmhouseDisplayName after ++ " status has been updated.",
            "farmhouse_update"⟩], 0⟩))) := by
  constructor
  · intro h
    unfold sendFarmhouseStatusNotification
    rw [if_pos h]
  · intro hne ht
    rw [farmhouse_sends_eq_of_token users before after t hne ht]
    constructor
    · intro ha
      simp [farmhouseTitle, farmhouseBody, ha]
    · intro ha
      simp [farmhouseTitle, farmhouseBody, ha]

/-- C9 witness: approving a listing named Green Villa for an owner with a
stored token sends the congratulatory message naming it. -/
theorem c9_listing_guard_and_messages_witness :
    sendFarmhouseStatusNotification [⟨"o1", some "owner", true, some "tO"⟩]
        ⟨false, some "o1", none, some "Green Villa", none, []⟩
        ⟨true, some "o1", none, some "Green Villa", none, []⟩ =
      ⟨1, [⟨"tO", "Farmhouse Approved!", "Green Villa has been approved and is now live!",
        "farmhouse_update"⟩], 0⟩ :=
  ((c9_listing_guard_and_messages [⟨"o1", some "owner", true, some "tO"⟩]
      ⟨false, some "o1", none, some "Green Villa", none, []⟩
      ⟨true, some "o1", none, some "Green Villa", none, []⟩ "tO").2
    (by decide) (by decide)).1 rfl

/-- C8: when at least one recipient token resolves and the batched
transport call throws an exception with message m, the dispatcher makes
exactly that one transport attempt (no retry) and performs exactly one
write back, recording notificationSent false with notificationError m. -/
theorem c8_transport_error_writeback (users : List UserRecord) (c : Communication)
    (transport : List String → TransportResult) (m : String)
    (hne : resolveRecipientTokens users c ≠ [])
    (hthrow : transport (resolveRecipientTokens users c) = .exn m) :
    sendCommunicationNotification users c transport =
      ⟨[resolveRecipientTokens users c], [.failed m]⟩ := by
  rw [sendCommunication_eq_of_tokens users c transport hne, hthrow]

/-- C8 witness: a broadcast to one tokened user whose transport call
throws boom records the single failed write. -/
theorem c8_transport_error_writeback_witness :
    sendCommunicationNotification [⟨"u1", some "user", true, some "tA"⟩]
        ⟨"all_users", none, none, some "Hi", some "Hello"⟩ (fun _ => .exn "boom") =
      ⟨[["tA"]], [.failed "boom"]⟩ :=
  c8_transport_error_writeback [⟨"u1", some "user", true, some "tA"⟩]
    ⟨"all_users", none, none, some "Hi", some "Hello"⟩ (fun _ => .exn "boom") "boom"
    (by decide) rfl

/-- C7 counterexample: an authenticated non-admin caller submitting an
empty token list is rejected with the permission-denied authorization
error, not the invalid-argument validation error, refuting the statement
that missing title, body or tokens yields invalid-argument regardless of
caller role. -/
theorem c7_auth_precedes_validation :
    (sendManualNotification [⟨"u1", some "user", true, none⟩] (some "u1")
        ⟨some "T", some "B", some []⟩ (fun ts => .ok ts.length 0)).result =
      .error ⟨.permissionDenied, "Only admins can send notifications"⟩ :=
  rfl

/-- C7 amended: an invalid request (missing title, missing body, or a
missing or empty token list) never reaches the transport, for any caller;
an authenticated admin caller gets the invalid-argument error, while an
authenticated non-admin caller is stopped earlier by the distinct
permission-denied error, and an unauthenticated caller by the distinct
unauthenticated error. -/
theorem c7_validation_no_transport (users : List UserRecord) (uid : String)
    (req : ManualRequest) (transport : List String → TransportResult)
    (hinv : manualRequestInvalid req = true) :
    (sendManualNotification users (some uid) req transport).transportCalls = [] ∧
    (sendManualNotification users none req transport).transportCalls = [] ∧
    (((users.find? (fun u => u.id = uid)).bind UserRecord.role) = some "admin" →
      (sendManualNotification users (some uid) req transport).result =
        .error ⟨.invalidArgument, "Missing required fields: title, body, or tokens"⟩) ∧
    (((users.find? (fun u => u.id = uid)).bind UserRecord.role) ≠ some "admin" →
      (sendManualNotification users (some uid) req transport).result =
        .error ⟨.permissionDenied, "Only admins can send notifications"⟩) ∧
    (sendManualNotification users none req transport).result =
      .error ⟨.unauthenticated, "User must be authenticated"⟩ ∧
    ErrCode.invalidArgument ≠ ErrCode.permissionDenied ∧
    ErrCode.invalidArgument ≠ ErrCode.unauthenticated := by
  by_cases hrole : ((users.find? (fun u => u.id = uid)).bind UserRecord.role) = some "admin"
  · refine ⟨?_, rfl, fun _ => ?_, fun h => absurd hrole h, rfl, by decide, by decide⟩
    · simp [sendManualNotification, hrole, hinv]
    · simp [sendManualNotification, hrole, hinv]
  · refine ⟨?_, rfl, fun h => absurd h hrole, fun _ => ?_, rfl, by decide, by decide⟩
    · simp [sendManualNotification, hrole]
    · simp [sendManualNotification, hrole]

/-- C7 witness: an admin caller with an empty token list gets the
invalid-argument error and the transport is never called. -/
theorem c7_validation_no_transport_witness :
    (sendManualNotification [⟨"a1", some "admin", true, none⟩] (some "a1")
        ⟨some "T", some "B", some []⟩ (fun ts => .ok ts.length 0)).transportCalls = [] ∧
    (sendManualNotification [⟨"a1", some "admin", true, none⟩] (some "a1")
        ⟨some "T", some "B", some []⟩ (fun ts => .ok ts.length 0)).result =
      .error ⟨.invalidArgument, "Missing required fields: title, body, or tokens"⟩ :=
  ⟨(c7_validation_no_transport [⟨"a1", some "admin", true, none⟩] "a1"
      ⟨some "T", some "B", some []⟩ (fun ts => .ok ts.length 0) (by decide)).1,
   (c7_validation_no_transport [⟨"a1", some "admin", true, none⟩] "a1"
      ⟨some "T", some "B", some []⟩ (fun ts => .ok ts.length 0) (by decide)).2.2.1 (by decide)⟩

/-- C10: every value sendManualNotification returns rather than throws has
success true and carries exactly the counts of the one successful
transport call; every failure mode is a thrown error with its own code
(unauthenticated, permission-denied for non-admin callers,
invalid-argument for bad input), and a transport exception is mapped to
the generic internal error whose message is fixed and independent of the
original exception message. -/
theorem c10_manual_result_shape (users : List UserRecord) (auth : Option String)
    (req : ManualRequest) (transport : List String → TransportResult) :
    (∀ r, (sendManualNotification users auth req transport).result = .ok r →
      r.success = true ∧
      transport (req.tokens.getD []) = .ok r.successCount r.failureCount) ∧
    (auth = none →
      (sendManualNotification users auth req transport).result =
        .error ⟨.unauthenticated, "User must be authenticated"⟩) ∧
    (∀ uid, auth = some uid →
      ((users.find? (fun u => u.id = uid)).bind UserRecord.role) ≠ some "admin" →
      (sendManualNotification users auth req transport).result =
        .error ⟨.permissionDenied, "Only admins can send notifications"⟩) ∧
    (∀ uid, auth = some uid →
      ((users.find? (fun u => u.id = uid)).bind UserRecord.role) = some "admin" →
      manualRequestInvalid req = true →
      (sendManualNotification users auth req transport).result =
        .error ⟨.invalidArgument, "Missing required fields: title, body, or tokens"⟩) ∧
    (∀ uid m, auth = some uid →
      ((users.find? (fun u => u.id = uid)).bind UserRecord.role) = some "admin" →
      manualRequestInvalid req = false →
      transport (req.tokens.getD []) = .exn m →
      (sendManualNotification users auth req transport).result =
        .error ⟨.internal, "Failed to send notification"⟩) := by
  refine ⟨?_, ?_, ?_, ?_, ?_⟩
  · intro r hr
    cases auth with
    | none => simp [sendManualNotification] at hr
    | some uid =>
      by_cases hrole : ((users.find? (fun u => u.id = uid)).bind UserRecord.role) = some "admin"
      · by_cases hval : manualRequestInvalid req = true
        · simp [sendManualNotification, hrole, hval] at hr
        · rw [Bool.not_eq_true] at hval
          cases htr : transport (req.tokens.getD []) with
          | ok s f =>
            have hr2 : (⟨true, s, f⟩ : ManualResponse) = r := by
              simpa [sendManualNotification, hrole, hval, htr] using hr
            subst hr2
            exact ⟨rfl, rfl⟩
          | exn m => simp [sendManualNotification, hrole, hval, htr] at hr
      · simp [sendManualNotification, hrole] at hr
  · intro h
    rw [h]
    rfl
  · intro uid h hrole
    rw [h]
    simp [sendManualNotification, hrole]
  · intro uid h hrole hval
    rw [h]
    simp [sendManualNotification, hrole, hval]
  · intro uid m h hrole hval htr
    rw [h]
    simp [sendManualNotification, hrole, hval, htr]

/-- C10 witness: an admin caller with a valid request whose transport call
throws boom receives the generic internal error, with the boom message
discarded. -/
theorem c10_manual_result_shape_witness :
    (sendManualNotification [⟨"a1", some "admin", true, none⟩] (some "a1")
        ⟨some "T", some "B", some ["tok"]⟩ (fun _ => .exn "boom")).result =
      .error ⟨.internal, "Failed to send notification"⟩ :=
  (c10_manual_result_shape [⟨"a1", some "admin", true, none⟩] (some "a1")
    ⟨some "T", some "B", some ["tok"]⟩ (fun _ => .exn "boom")).2.2.2.2
    "a1" "boom" rfl (by decide) (by decide) rfl

end RerouteAdmin
